import Mathlib

/-!
Shallow embedding of the slider-solver core from src/utils/初版.py
(class XianyuSliderStealth) together with proofs about the claims of the
natural-language specification.

Modelling conventions:
* Python floats are modelled as exact rationals (ℚ).
* Randomness is modelled by an explicit stream s : ℕ → ℚ of draws in [0,1];
  random.uniform a b consumes one draw t and returns a + (b-a)*t;
  random.random consumes one draw and returns it; random.randint a b
  consumes one draw t and returns a + min (b-a) ⌊t*(b-a+1)⌋.
  Call sites consume stream indices in the order of the source.
* Python round(x, 1) is modelled as rounding to the nearest tenth,
  int(x) as truncation toward zero.
* Fallible collaborator calls (page driver, DOM queries) are modelled as
  explicit Except-valued environment fields; raising is the .error case.
* while-loops are modelled with explicit fuel; a result of none means the
  fuel was exhausted (the Python loop would still be running).
-/

namespace Slider

/-- A random stream is valid when every draw lies in the unit interval. -/
def validStream (s : ℕ → ℚ) : Prop := ∀ n, 0 ≤ s n ∧ s n ≤ 1

/-- Model of random.uniform a b applied to a unit draw t. -/
def unif (a b t : ℚ) : ℚ := a + (b - a) * t

/-- Model of Python round(x, 1): round to the nearest tenth
(⌊10x + 1/2⌋ / 10, i.e. ties rounded up). -/
def pyRound1 (x : ℚ) : ℚ := (⌊10 * x + 1 / 2⌋ : ℤ) / 10

/-- Model of Python int(x): truncation toward zero. -/
def pyInt (x : ℚ) : ℤ := if 0 ≤ x then ⌊x⌋ else -⌊-x⌋

/-- Model of Python abs(x). -/
def pyAbs (x : ℚ) : ℚ := if 0 ≤ x then x else -x

theorem pyAbs_eq_abs (x : ℚ) : pyAbs x = |x| := by
  unfold pyAbs
  by_cases h : 0 ≤ x
  · rw [if_pos h, abs_of_nonneg h]
  · push_neg at h
    rw [if_neg (not_le.mpr h), abs_of_neg h]

/-- Model of random.randint a b applied to a unit draw t. -/
def pyRandint (a b : ℤ) (t : ℚ) : ℤ := a + min (b - a) ⌊t * ((b : ℚ) - (a : ℚ) + 1)⌋

theorem unif_le {a b t : ℚ} (hab : a ≤ b) (h0 : 0 ≤ t) (h1 : t ≤ 1) :
    a ≤ unif a b t ∧ unif a b t ≤ b := by
  unfold unif
  constructor
  · nlinarith
  · nlinarith

theorem pyRound1_close (x : ℚ) : |pyRound1 x - x| ≤ 1 / 20 := by
  unfold pyRound1
  have h1 : ((⌊10 * x + 1 / 2⌋ : ℤ) : ℚ) ≤ 10 * x + 1 / 2 := Int.floor_le _
  have h2 : 10 * x + 1 / 2 - 1 < ((⌊10 * x + 1 / 2⌋ : ℤ) : ℚ) := Int.sub_one_lt_floor _
  rw [abs_le]
  constructor <;> [linarith; linarith]

theorem pyRound1_mono {x y : ℚ} (h : x ≤ y) : pyRound1 x ≤ pyRound1 y := by
  unfold pyRound1
  have hf : ⌊10 * x + 1 / 2⌋ ≤ ⌊10 * y + 1 / 2⌋ := Int.floor_le_floor (by linarith)
  have hc : ((⌊10 * x + 1 / 2⌋ : ℤ) : ℚ) ≤ ((⌊10 * y + 1 / 2⌋ : ℤ) : ℚ) := by exact_mod_cast hf
  linarith

theorem pyInt_eq_trunc (x : ℚ) : pyInt x = if 0 ≤ x then ⌊x⌋ else ⌈x⌉ := by
  unfold pyInt
  by_cases h : 0 ≤ x
  · rw [if_pos h, if_pos h]
  · rw [if_neg h, if_neg h, ← neg_neg (⌈x⌉), ← Int.floor_neg]

theorem pyInt_le (x : ℚ) : (pyInt x : ℚ) ≤ max x 0 := by
  rw [pyInt_eq_trunc]
  by_cases h : 0 ≤ x
  · rw [if_pos h]
    exact le_max_of_le_left (Int.floor_le x)
  · rw [if_neg h]
    refine le_max_of_le_right ?_
    push_neg at h
    have hc := Int.ceil_le.mpr (le_of_lt h)
    calc ((⌈x⌉ : ℤ) : ℚ) ≤ ((0 : ℤ) : ℚ) := by exact_mod_cast hc
    _ = 0 := by norm_num

theorem pyInt_gt (x : ℚ) : x - 1 < (pyInt x : ℚ) := by
  rw [pyInt_eq_trunc]
  by_cases h : 0 ≤ x
  · rw [if_pos h]
    have := Int.sub_one_lt_floor x
    linarith
  · rw [if_neg h]
    have := Int.le_ceil x
    linarith

theorem pyInt_floor_le (x : ℚ) : (⌊x⌋ : ℤ) ≤ pyInt x := by
  rw [pyInt_eq_trunc]
  by_cases h : 0 ≤ x
  · rw [if_pos h]
  · rw [if_neg h]
    exact Int.floor_le_ceil x

theorem pyRandint_mem {a b : ℤ} {t : ℚ} (hab : a ≤ b) (h0 : 0 ≤ t) (h1 : t ≤ 1) :
    a ≤ pyRandint a b t ∧ pyRandint a b t ≤ b := by
  unfold pyRandint
  constructor
  · have hf : (0 : ℤ) ≤ ⌊t * ((b : ℚ) - (a : ℚ) + 1)⌋ := by
      apply Int.floor_nonneg.mpr
      have hba : (0 : ℚ) ≤ (b : ℚ) - (a : ℚ) + 1 := by
        have : (a : ℚ) ≤ (b : ℚ) := by exact_mod_cast hab
        linarith
      positivity
    have : (0 : ℤ) ≤ min (b - a) ⌊t * ((b : ℚ) - (a : ℚ) + 1)⌋ := le_min (by omega) hf
    omega
  · have : min (b - a) ⌊t * ((b : ℚ) - (a : ℚ) + 1)⌋ ≤ b - a := min_le_left _ _
    omega

/-! ## Verification oracle (check_verification_failure / check_verification_success)

The page title query and the .errloading element query can each raise; the
element, when the query returns, is either absent (falsy) or present with an
is_displayed call that can itself raise.  src/utils/初版.py lines 571-601. -/

structure OracleEnv where
  titleRes : Except Unit String
  errEleRes : Except Unit (Option (Except Unit Bool))

/-- check_verification_failure: returns true when the page title equals
"验证码拦截" or a displayed .errloading element is found; any exception is
caught and the function falls through to return false. -/
def check_verification_failure (env : OracleEnv) : Bool :=
  match env.titleRes with
  | .error _ => false
  | .ok t =>
    if t = "验证码拦截" then true
    else
      match env.errEleRes with
      | .error _ => false
      | .ok none => false
      | .ok (some dres) =>
        match dres with
        | .error _ => false
        | .ok d => d

/-- check_verification_success: the negation of check_verification_failure. -/
def check_verification_success (env : OracleEnv) : Bool :=
  !(check_verification_failure env)

/-- The failure oracle raised during its query of the page title or of the
.errloading element (so it could not complete its checks normally). -/
def oracleQueryRaised (env : OracleEnv) : Bool :=
  match env.titleRes with
  | .error _ => true
  | .ok t =>
    if t = "验证码拦截" then false
    else
      match env.errEleRes with
      | .error _ => true
      | .ok none => false
      | .ok (some dres) =>
        match dres with
        | .error _ => true
        | .ok _ => false

/-- C1 counterexample: when the page-title query raises (verification is
ambiguous), check_verification_success reports success, contradicting the
claim that it must not. -/
theorem C1_counterexample :
    check_verification_success ⟨Except.error (), Except.ok none⟩ = true := rfl

/-- C1 (amended): if evaluating the failure oracle raises an exception, the
exception is swallowed, check_verification_failure returns false, and
check_verification_success therefore reports success: ambiguity is treated
as implicit success, not conservatively as failure. -/
theorem C1_amended (env : OracleEnv) (h : oracleQueryRaised env = true) :
    check_verification_failure env = false ∧ check_verification_success env = true := by
  rcases env with ⟨tr, er⟩
  cases tr with
  | error e => exact ⟨rfl, rfl⟩
  | ok t =>
    by_cases ht : t = "验证码拦截"
    · exfalso
      simp [oracleQueryRaised, ht] at h
    · cases er with
      | error e =>
        constructor <;>
          simp [check_verification_failure, check_verification_success, ht]
      | ok oe =>
        cases oe with
        | none =>
          exfalso
          simp [oracleQueryRaised, ht] at h
        | some dres =>
          cases dres with
          | error e =>
            constructor <;>
              simp [check_verification_failure, check_verification_success, ht]
          | ok d =>
            exfalso
            simp [oracleQueryRaised, ht] at h

/-- Witness for C1_amended at a concrete environment. -/
theorem C1_amended_witness :
    check_verification_failure ⟨Except.error (), Except.ok none⟩ = false ∧
      check_verification_success ⟨Except.error (), Except.ok none⟩ = true :=
  C1_amended ⟨Except.error (), Except.ok none⟩ rfl

/-! ## Distance estimation (calculate_slide_distance), lines 353-394 -/

/-- Fallback tiers of calculate_slide_distance keyed to the page width. -/
def calculate_fallback_distance (pageWidth : ℚ) (s : ℕ → ℚ) : ℤ :=
  if pageWidth ≤ 1366 then pyRandint 250 320 (s 0)
  else if pageWidth ≤ 1920 then pyRandint 300 400 (s 0)
  else pyRandint 350 480 (s 0)

/-- calculate_slide_distance: track-width based distance when a positive track
width was measured (the width is multiplied by a ratio draw, truncated to int,
a variation draw is added and the sum clamped to [200, 600]); otherwise the
page-width fallback tiers; an exception yields the default 350 + randint(1,50). -/
def calculate_slide_distance (trackWidth : Option ℚ) (pageWidth : ℚ) (geomRaises : Bool)
    (s : ℕ → ℚ) : ℤ :=
  if geomRaises then 350 + pyRandint 1 50 (s 0)
  else
    match trackWidth with
    | some tw =>
      if tw ≠ 0 then
        let slide_ratio := unif (7 / 10) (9 / 10) (s 0)
        let calculated_distance := pyInt (tw * slide_ratio)
        let distance_variation := pyRandint (-20) 20 (s 1)
        max 200 (min 600 (calculated_distance + distance_variation))
      else calculate_fallback_distance pageWidth s
    | none => calculate_fallback_distance pageWidth s

/-- Modelled from the spec: the claimed track-based formula
distance = clamp(track_width * U(0.70, 0.90) + U(-20, 20), 200, 600),
with no integer truncation of the product. -/
def specTrackDistance (tw r v : ℚ) : ℚ := max 200 (min 600 (tw * r + v))

/-- C9 counterexample: for track width 350.5 with ratio draw 0.70 and
variation draw -20, the code truncates 350.5 * 0.70 = 245.35 to 245 before
adding the variation, returning 225, while the claimed formula yields 225.35:
the computed distance does not equal the claimed expression. -/
theorem C9_counterexample :
    ((calculate_slide_distance (some (701 / 2)) 1366 false (fun _ => 0) : ℤ) : ℚ) ≠
      specTrackDistance (701 / 2) (unif (7 / 10) (9 / 10) 0)
        ((pyRandint (-20) 20 0 : ℤ) : ℚ) := by
  norm_num [calculate_slide_distance, specTrackDistance, unif, pyRandint, pyInt]

/-- C9 (amended): for a positive track width the distance is
clamp(int(track_width * U(0.70, 0.90)) + randint(-20, 20), 200, 600) — the
product is truncated to an integer before the variation is added — and hence
the returned distance always lies in [200, 600]. -/
theorem C9_amended (tw pageWidth : ℚ) (s : ℕ → ℚ) (htw : 0 < tw) :
    calculate_slide_distance (some tw) pageWidth false s =
      max 200 (min 600 (pyInt (tw * unif (7 / 10) (9 / 10) (s 0)) + pyRandint (-20) 20 (s 1))) ∧
    200 ≤ calculate_slide_distance (some tw) pageWidth false s ∧
    calculate_slide_distance (some tw) pageWidth false s ≤ 600 := by
  have htw' : tw ≠ 0 := ne_of_gt htw
  have heq : calculate_slide_distance (some tw) pageWidth false s =
      max 200 (min 600 (pyInt (tw * unif (7 / 10) (9 / 10) (s 0)) + pyRandint (-20) 20 (s 1))) := by
    simp [calculate_slide_distance, htw']
  refine ⟨heq, ?_, ?_⟩
  · rw [heq]
    exact le_max_left _ _
  · rw [heq]
    exact max_le (by norm_num) (min_le_left _ _)

/-- Witness for C9_amended at track width 301 with the constant draw 1/2. -/
theorem C9_amended_witness :
    (0 : ℚ) < 301 ∧ 200 ≤ calculate_slide_distance (some 301) 1366 false (fun _ => 1 / 2) ∧
      calculate_slide_distance (some 301) 1366 false (fun _ => 1 / 2) ≤ 600 :=
  ⟨by norm_num, (C9_amended 301 1366 (fun _ => 1 / 2) (by norm_num)).2⟩

/-! ## Strategy selection (the first half of generate_human_trajectory),
lines 396-436: cycle position and number, refresh decision, mode, timing
envelope and point count. -/

structure Strategy where
  mode : String
  target_total_time : ℚ
  trajectory_points : ℤ
  refreshOut : Bool
  drawsUsed : ℕ
deriving Repr

/-- The strategy part of generate_human_trajectory: cycle_position and
cycle_number are derived from the attempt counter; the refresh flag may be set
(never cleared) when cycle_position = 0 and cycle_number > 1; the behavioural
mode, target total time and trajectory point count follow the source branches. -/
def select_strategy (attempt : ℕ) (refreshIn : Bool) (s : ℕ → ℚ) : Strategy :=
  let cycle_position := (attempt - 1) % 3
  let cycle_number := (attempt - 1) / 3 + 1
  let refresh :=
    if cycle_position = 0 ∧ 1 < cycle_number then
      let refresh_probability := min (2 / 10 + ((cycle_number : ℚ) - 2) * (15 / 100)) (7 / 10)
      if s 0 < refresh_probability then true else refreshIn
    else refreshIn
  let ix : ℕ := if cycle_position = 0 ∧ 1 < cycle_number then 1 else 0
  if cycle_position = 0 then
    if cycle_number = 1 then
      ⟨"初次谨慎模式", unif 2 4 (s ix), pyRandint 80 150 (s (ix + 1)), refresh, ix + 2⟩
    else
      ⟨("第" ++ toString cycle_number ++ "轮谨慎模式") ++
          (if refresh then " [失败后将刷新]" else ""),
        unif (3 / 2) 3 (s ix), pyRandint 60 120 (s (ix + 1)), refresh, ix + 2⟩
  else if cycle_position = 1 then
    let base_speed := max (2 / 10) (1 - (cycle_number : ℚ) * (1 / 10))
    ⟨"第" ++ toString cycle_number ++ "轮急躁模式",
      unif base_speed (base_speed + 4 / 10) (s ix), pyRandint 30 60 (s (ix + 1)), refresh, ix + 2⟩
  else
    ⟨"第" ++ toString cycle_number ++ "轮反思模式",
      unif 1 2 (s ix), pyRandint 50 90 (s (ix + 1)), refresh, ix + 2⟩

/-- The string pat occurs as a substring of s. -/
def containsSub (s pat : String) : Prop := ∃ a b : List Char, s.data = a ++ pat.data ++ b

theorem containsSub_append_left (x y pat : String) (h : containsSub x pat) :
    containsSub (x ++ y) pat := by
  obtain ⟨a, b, hab⟩ := h
  exact ⟨a, b ++ y.data, by simp [String.data_append, hab]⟩

theorem contains_round_mode (t tail : String) (hd : Char) (pat : String)
    (h : tail.data = hd :: pat.data) :
    containsSub ("第" ++ t ++ tail) pat := by
  refine ⟨("第" : String).data ++ t.data ++ [hd], [], ?_⟩
  simp [String.data_append, h]

/-- C7: the behavioural mode is a pure function of the attempt index through
cycle_position = (attempt - 1) mod 3: position 0 selects a cautious (谨慎)
mode, position 1 an impatient (急躁) mode and position 2 a reflective (反思)
mode, for every random stream and every incoming refresh flag. -/
theorem C7_mode_selection (attempt : ℕ) (refreshIn : Bool) (s : ℕ → ℚ) :
    ((attempt - 1) % 3 = 0 →
      containsSub (select_strategy attempt refreshIn s).mode ("谨慎模式")) ∧
    ((attempt - 1) % 3 = 1 →
      containsSub (select_strategy attempt refreshIn s).mode ("急躁模式")) ∧
    ((attempt - 1) % 3 = 2 →
      containsSub (select_strategy attempt refreshIn s).mode ("反思模式")) := by
  refine ⟨fun h0 => ?_, fun h1 => ?_, fun h2 => ?_⟩
  · by_cases hc : (attempt - 1) / 3 + 1 = 1
    · have hm : (select_strategy attempt refreshIn s).mode = "初次谨慎模式" := by
        unfold select_strategy
        simp [h0, hc]
      rw [hm]
      exact ⟨("初次" : String).data, [], by decide⟩
    · have hm : (select_strategy attempt refreshIn s).mode =
          ("第" ++ toString ((attempt - 1) / 3 + 1) ++ "轮谨慎模式") ++
            (if (select_strategy attempt refreshIn s).refreshOut
              then " [失败后将刷新]" else "") := by
        unfold select_strategy
        simp [h0, hc]
      rw [hm]
      apply containsSub_append_left
      exact contains_round_mode _ _ ('轮') _ rfl
  · have h0 : ¬((attempt - 1) % 3 = 0) := by omega
    have hm : (select_strategy attempt refreshIn s).mode =
        "第" ++ toString ((attempt - 1) / 3 + 1) ++ "轮急躁模式" := by
      unfold select_strategy
      simp [h0, h1]
    rw [hm]
    exact contains_round_mode _ _ ('轮') _ rfl
  · have h0 : ¬((attempt - 1) % 3 = 0) := by omega
    have h1 : ¬((attempt - 1) % 3 = 1) := by omega
    have hm : (select_strategy attempt refreshIn s).mode =
        "第" ++ toString ((attempt - 1) / 3 + 1) ++ "轮反思模式" := by
      unfold select_strategy
      simp [h0, h1]
    rw [hm]
    exact contains_round_mode _ _ ('轮') _ rfl

/-- Witness for C7_mode_selection: attempt 4 has cycle position 0 and its mode
contains 谨慎模式. -/
theorem C7_mode_selection_witness :
    containsSub (select_strategy 4 false (fun _ => 1 / 2)).mode ("谨慎模式") :=
  (C7_mode_selection 4 false (fun _ => 1 / 2)).1 (by norm_num)

/-- C8: the refresh flag is never newly set outside a cautious attempt of a
cycle after the first: whenever cycle_position ≠ 0 or cycle_number = 1, the
strategy selection leaves the refresh flag exactly as it was. -/
theorem C8_refresh_gating (attempt : ℕ) (refreshIn : Bool) (s : ℕ → ℚ)
    (h : ¬((attempt - 1) % 3 = 0 ∧ 1 < (attempt - 1) / 3 + 1)) :
    (select_strategy attempt refreshIn s).refreshOut = refreshIn := by
  unfold select_strategy
  simp only [if_neg h]
  by_cases h0 : (attempt - 1) % 3 = 0
  · simp only [h0, if_pos rfl, if_true]
    by_cases hc : (attempt - 1) / 3 + 1 = 1
    · simp [hc]
    · simp [hc]
  · simp only [if_neg h0]
    by_cases h1 : (attempt - 1) % 3 = 1
    · simp [h1]
    · simp [h1]

/-- Witness for C8_refresh_gating: the impatient attempt 2 leaves a clear
refresh flag clear, for an always-refresh-eager random stream. -/
theorem C8_refresh_gating_witness :
    (select_strategy 2 false (fun _ => 0)).refreshOut = false :=
  C8_refresh_gating 2 false (fun _ => 0) (by norm_num)

/-! ## Trajectory synthesis (_get_tracks_internal), lines 723-800.

The while loop is split into small per-rule functions so that every update of
the source loop body appears as one definition; trackStep composes them in
source order, threading the position, the velocity, the stream index and the
accumulated track list. -/

structure TrackState where
  current : ℚ
  velocity : ℚ
  ix : ℕ
  tracks : List ℚ
deriving Repr

/-- target_accel draw: U(15,35) while accelerating, U(-2,2) in the steady
region, U(-25,-8) while decelerating. -/
def accelDraw (acceleration_phase deceleration_start current t : ℚ) : ℚ :=
  if current < acceleration_phase then unif 15 35 t
  else if current < deceleration_start then unif (-2) 2 t
  else unif (-25) (-8) t

/-- velocity update: velocity * 0.95 + target_accel * dt, clamped to
[0, max_velocity]. -/
def newVelocity (acceleration_phase deceleration_start dt max_velocity : ℚ)
    (s : ℕ → ℚ) (current velocity : ℚ) (ix : ℕ) : ℚ :=
  max 0 (min (velocity * (95 / 100) +
    accelDraw acceleration_phase deceleration_start current (s ix) * dt) max_velocity)

/-- backward slip: when the random() draw is below 0.12 and current > 50,
subtract U(1,4); the random() draw is always consumed. -/
def slipRule (s : ℕ → ℚ) (cix : ℚ × ℕ) : ℚ × ℕ :=
  if s cix.2 < 12 / 100 ∧ 50 < cix.1 then (cix.1 - unif 1 4 (s (cix.2 + 1)), cix.2 + 2)
  else (cix.1, cix.2 + 1)

/-- forced forward progress of U(0.1,0.8) when the update went backward. -/
def forwardRule (s : ℕ → ℚ) (old_current : ℚ) (cix : ℚ × ℕ) : ℚ × ℕ :=
  if cix.1 < old_current then (old_current + unif (1 / 10) (8 / 10) (s cix.2), cix.2 + 1) else cix

/-- forward jumps larger than 15 are clamped to U(8,15). -/
def clampRule (s : ℕ → ℚ) (old_current : ℚ) (cix : ℚ × ℕ) : ℚ × ℕ :=
  if 15 < cix.1 - old_current then (old_current + unif 8 15 (s cix.2), cix.2 + 1) else cix

def stepAssemble (velocity : ℚ) (tracks : List ℚ) (cix : ℚ × ℕ) : TrackState :=
  ⟨cix.1, velocity, cix.2, tracks ++ [pyRound1 cix.1]⟩

/-- one iteration of the while loop of _get_tracks_internal. -/
def trackStep (acceleration_phase deceleration_start dt max_velocity : ℚ)
    (s : ℕ → ℚ) (st : TrackState) : TrackState :=
  stepAssemble
    (newVelocity acceleration_phase deceleration_start dt max_velocity s st.current st.velocity
      st.ix)
    st.tracks
    (clampRule s st.current
      (forwardRule s st.current
        (slipRule s
          (st.current +
            newVelocity acceleration_phase deceleration_start dt max_velocity s st.current
              st.velocity st.ix * dt,
            st.ix + 1))))

/-- the while current < distance loop, with explicit fuel; none means the fuel
was exhausted while the loop was still running. -/
def trackLoop (distance acceleration_phase deceleration_start dt max_velocity : ℚ)
    (s : ℕ → ℚ) : ℕ → TrackState → Option TrackState
  | 0, st => if st.current < distance then none else some st
  | fuel + 1, st =>
    if st.current < distance then
      trackLoop distance acceleration_phase deceleration_start dt max_velocity s fuel
        (trackStep acceleration_phase deceleration_start dt max_velocity s st)
    else some st

theorem trackLoop_succ (distance acceleration_phase deceleration_start dt max_velocity : ℚ)
    (s : ℕ → ℚ) (fuel : ℕ) (st : TrackState) :
    trackLoop distance acceleration_phase deceleration_start dt max_velocity s (fuel + 1) st =
      if st.current < distance then
        trackLoop distance acceleration_phase deceleration_start dt max_velocity s fuel
          (trackStep acceleration_phase deceleration_start dt max_velocity s st)
      else some st := rfl

/-- dt selection: distance / (target_points * max_velocity * 0.5) jittered and
clamped to [0.01, 0.2] when a nonzero point count is requested (Python
truthiness: 0 and None both select the U(0.02,0.12) branch). -/
def computeDt (distance max_velocity : ℚ) (target_points : Option ℕ) (t : ℚ) : ℚ :=
  match target_points with
  | some p =>
    if p ≠ 0 then
      max (1 / 100)
        (min (1 / 5) (distance / ((p : ℚ) * max_velocity * (1 / 2)) * unif (8 / 10) (12 / 10) t))
    else unif (2 / 100) (12 / 100) t
  | none => unif (2 / 100) (12 / 100) t

/-- with probability 0.3 an overshoot pair distance + U(2,8) then
distance + U(-1,2) is appended; the final point distance + U(-1,1) is always
appended. -/
def appendTail (distance : ℚ) (s : ℕ → ℚ) (tracks : List ℚ) (ix : ℕ) : List ℚ × ℕ :=
  if s ix < 3 / 10 then
    (tracks ++ [pyRound1 (distance + unif 2 8 (s (ix + 1))),
        pyRound1 (distance + unif (-1) 2 (s (ix + 2))),
        pyRound1 (distance + unif (-1) 1 (s (ix + 3)))], ix + 4)
  else (tracks ++ [pyRound1 (distance + unif (-1) 1 (s (ix + 1)))], ix + 2)

def rawFinish (distance : ℚ) (s : ℕ → ℚ) : Option TrackState → Option (List ℚ × ℕ)
  | none => none
  | some st => some (appendTail distance s st.tracks st.ix)

/-- the raw track synthesis: header draws (max_velocity, acceleration phase,
deceleration start, dt), the while loop from [0], then the tail. -/
def get_tracks_raw (distance : ℚ) (target_points : Option ℕ) (s : ℕ → ℚ) (fuel : ℕ) :
    Option (List ℚ × ℕ) :=
  rawFinish distance s
    (trackLoop distance (distance * unif (3 / 10) (6 / 10) (s 1))
      (distance * unif (6 / 10) (85 / 100) (s 2))
      (computeDt distance (unif 80 150 (s 0)) target_points (s 3)) (unif 80 150 (s 0)) s fuel
      ⟨0, 0, 4, [0]⟩)

/-- the cleanup pass: points closer than 1.5 to the last kept point are
dropped; forward or slightly backward (< 3) points are kept; larger backward
points are replaced by last + U(0.1,1.0). -/
def cleanLoop (s : ℕ → ℚ) : List ℚ → ℚ → ℕ → List ℚ → List ℚ × ℕ
  | [], _, ix, acc => (acc, ix)
  | p :: rest, last_pos, ix, acc =>
    if pyAbs (p - last_pos) < 3 / 2 then cleanLoop s rest last_pos ix acc
    else if last_pos ≤ p ∨ last_pos - p < 3 then cleanLoop s rest p ix (acc ++ [p])
    else
      cleanLoop s rest (last_pos + unif (1 / 10) 1 (s ix)) (ix + 1)
        (acc ++ [last_pos + unif (1 / 10) 1 (s ix)])

theorem cleanLoop_cons (s : ℕ → ℚ) (p : ℚ) (rest : List ℚ) (last_pos : ℚ) (ix : ℕ)
    (acc : List ℚ) :
    cleanLoop s (p :: rest) last_pos ix acc =
      if pyAbs (p - last_pos) < 3 / 2 then cleanLoop s rest last_pos ix acc
      else if last_pos ≤ p ∨ last_pos - p < 3 then cleanLoop s rest p ix (acc ++ [p])
      else
        cleanLoop s rest (last_pos + unif (1 / 10) 1 (s ix)) (ix + 1)
          (acc ++ [last_pos + unif (1 / 10) 1 (s ix)]) := rfl

def clean_tracks (raw : List ℚ) (s : ℕ → ℚ) (ix : ℕ) : List ℚ × ℕ :=
  match raw with
  | [] => ([], ix)
  | t0 :: rest => cleanLoop s rest t0 ix [t0]

/-- the indices picked by the resampling loop for i = start, start+1, ... -/
def resamplePicks (cleaned : List ℚ) (step : ℚ) (lastIdx : ℕ) : ℕ → ℕ → List ℚ
  | _, 0 => []
  | i, cnt + 1 =>
    cleaned.getD (min (pyInt ((i : ℚ) * step)).toNat lastIdx) 0 ::
      resamplePicks cleaned step lastIdx (i + 1) cnt

/-- the resampling pass: when a nonzero point count is requested and the
cleaned sequence is longer, keep the first point, stride through the cleaned
sequence for i = 1 .. target-2, and append the last point verbatim. -/
def resample_tracks (cleaned : List ℚ) (target_points : Option ℕ) : List ℚ :=
  match target_points with
  | some p =>
    if p ≠ 0 ∧ p < cleaned.length then
      (cleaned.take 1 ++
          resamplePicks cleaned ((cleaned.length : ℚ) / (p : ℚ)) (cleaned.length - 1) 1
            (p - 2)) ++
        [cleaned.getD (cleaned.length - 1) 0]
    else cleaned
  | none => cleaned

/-- _get_tracks_internal: raw synthesis, cleanup, resampling, truncation of
every value to int. -/
def get_tracks_internal (distance : ℚ) (target_points : Option ℕ) (s : ℕ → ℚ) (fuel : ℕ) :
    Option (List ℤ) :=
  match get_tracks_raw distance target_points s fuel with
  | none => none
  | some (tracks, ix) =>
    some ((resample_tracks (clean_tracks tracks s ix).1 target_points).map pyInt)

/-- concrete draw stream used for the trajectory counterexamples at
distance 60: slow max_velocity, wide acceleration phase, maximal dt, an
overshoot fired at index 24 with a large overshoot and low corrections. -/
def streamC3 : ℕ → ℚ := fun n => if n = 0 ∨ n = 2 ∨ n = 24 ∨ n = 26 ∨ n = 27 then 0 else 1

theorem validStream_streamC3 : validStream streamC3 := by
  intro n
  unfold streamC3
  by_cases h : n = 0 ∨ n = 2 ∨ n = 24 ∨ n = 26 ∨ n = 27 <;> simp [h]

/-- concrete draw stream used for the trajectory counterexamples at
distance 150: an overshoot fired at index 40 landing between two backward
steps of the cleaned sequence. -/
def streamC6 : ℕ → ℚ := fun n => if n = 0 ∨ n = 40 then 0 else if n = 41 then 5 / 12 else 1

theorem validStream_streamC6 : validStream streamC6 := by
  intro n
  unfold streamC6
  by_cases h : n = 0 ∨ n = 40
  · simp [h]
  · by_cases h41 : n = 41 <;> simp [h, h41] <;> norm_num

end Slider
